import Mathlib

/-!
Verification of the repository-migration scripts `src/migrate_repos.py`
(local-mirror strategy) and `src/migrate_repos2.py` (server-side migration
strategy) against their natural-language specification.

Python strings are modelled as `List Char`; the Python string operations the
scripts use (`str.split(sep)`, `str.strip()`, `str.startswith`, truthiness)
are embedded as executable functions below.  HTTP responses and external
`git` commands are oracles: the scripts only branch on their observable
result (status code / parsed message / raised exception, command success or
failure), which the models take as explicit parameters.
-/

/-- Coerce a Lean string literal to the `List Char` model of Python strings. -/
def lit (s : String) : List Char := s.data

/-- The ASCII whitespace characters removed by Python `str.strip()`
(restricted to the ASCII range, which is all these scripts ever see). -/
def isWs (c : Char) : Bool := c = ' ' || c = '\t' || c = '\n' || c = '\r'

/-- Python `s.strip()`: remove leading and trailing whitespace. -/
def pyStrip (s : List Char) : List Char :=
  ((s.dropWhile isWs).reverse.dropWhile isWs).reverse

/-- Python `s.split(sep)` for a one-character separator: split at every
occurrence of `sep`, keeping empty pieces (`"".split('/') == ['']`,
`"/x".split('/') == ['', 'x']`). -/
def pySplit (sep : Char) : List Char → List (List Char)
  | [] => [[]]
  | c :: rest =>
    let r := pySplit sep rest
    if c = sep then [] :: r
    else
      match r with
      | [] => [[c]]
      | h :: t => (c :: h) :: t

/-- Python `s.startswith(pre)`. -/
def pyStartsWith (pre s : List Char) : Bool := List.isPrefixOf pre s

/-- Python truthiness of an optional string: `None` and `""` are falsy.
Used to model `if github_token:` / `if owner:` on values read from the
environment. -/
def pyTruthy (o : Option (List Char)) : Option (List Char) :=
  match o with
  | some s => if s.isEmpty then none else some s
  | none => none

/-- The apostrophe character, as printed by Python `repr` of a string. -/
def squote : Char := Char.ofNat 39

/-- Decimal rendering of a natural number (Python `str(n)` for the
subprocess return code). -/
def natStr (n : Nat) : List Char := (Nat.repr n).data

/-- Python `str(list_of_strings)`: the bracketed, comma-separated,
single-quoted rendering, as interpolated by
`CalledProcessError.__str__` for `self.cmd`. -/
def pyListRepr (args : List (List Char)) : List Char :=
  lit "[" ++ List.intercalate (lit ", ") (args.map (fun a => [squote] ++ a ++ [squote])) ++ lit "]"

/-- `str(subprocess.CalledProcessError(returncode, cmd))`:
`Command '<cmd repr>' returned non-zero exit status <rc>.` -/
def calledProcessErrorStr (cmd : List (List Char)) (rc : Nat) : List Char :=
  lit "Command " ++ [squote] ++ pyListRepr cmd ++ [squote]
    ++ lit " returned non-zero exit status " ++ natStr rc ++ lit "."

/-! ### Model of `src/migrate_repos2.py` (server-side migration) -/

/-- Observable behaviour of one `requests.post` call to the migrate API,
as the script distinguishes it (`migrate_repos2.py` lines 103-131):
a response with a status code (`message` is the value of
`response.json().get('message', 'Unknown error')` when the body parses as
JSON, `none` when `response.json()` raises and the script falls back to
`response.text`, modelled by `body`); a `requests.exceptions.Timeout`; or
another `requests.exceptions.RequestException` with its rendered detail. -/
inductive HttpResult where
  | status (code : Nat) (message : Option (List Char)) (body : List Char)
  | timeout
  | netError (detail : List Char)
deriving DecidableEq

/-- Per-item migration outcome (spec §3 `MigrationOutcome`).  The script
reports it by the printed symbol (`✓ Success` / `⚠ Already exists` /
`✗ Failed` plus a reason) and returns `True` for the first two,
`False` for the third. -/
inductive Outcome where
  | Created
  | AlreadyExists
  | Failed (reason : List Char)
deriving DecidableEq

/-- `True` exactly when the script returned `False` for the item. -/
def isFailed : Outcome → Bool
  | .Failed _ => true
  | _ => false

/-- JSON payload of the migrate call (`migrate_repos2.py` lines 74-96).
`priv` stands for the JSON field `"private"` (a Lean keyword). -/
structure MigratePayload where
  clone_addr : List Char
  repo_name : List Char
  mirror : Bool
  priv : Bool
  description : List Char
  issues : Bool
  pull_requests : Bool
  releases : Bool
  wiki : Bool
  milestones : Bool
  labels : Bool
  service : List Char
  auth_token : Option (List Char)
  auth_username : Option (List Char)
  repo_owner : Option (List Char)
deriving DecidableEq

/-- The one network call `migrate_repository` can issue: endpoint, JSON
payload, and the `timeout=120` passed to `requests.post`. -/
structure MigrateRequest where
  endpoint : List Char
  payload : MigratePayload
  timeoutSeconds : Nat
deriving DecidableEq

/-- Python `s.rstrip('/')`: remove trailing slashes
(`forgejo_url.rstrip('/')` in line 62). -/
def pyRstripSlash (s : List Char) : List Char :=
  (s.reverse.dropWhile (fun c => c = '/')).reverse

/-- Classification of the migrate-call response
(`migrate_repos2.py` lines 107-131): 200/201 → `Created`; 409 →
`AlreadyExists`; any other status → `Failed` with the parsed `message`
field if the body is JSON, else the raw body; timeout → `Failed`;
other network exception → `Failed` with its detail. -/
def classify (resp : HttpResult) : Outcome :=
  match resp with
  | .status code message body =>
    if code = 200 ∨ code = 201 then .Created
    else if code = 409 then .AlreadyExists
    else
      match message with
      | some msg => .Failed msg
      | none => .Failed body
  | .timeout => .Failed (lit "Timeout")
  | .netError detail => .Failed (lit "Network error: " ++ detail)

/-- `migrate_repository(forgejo_url, forgejo_token, github_repo,
github_token, owner, mirror)` (`migrate_repos2.py` lines 44-131), with the
HTTP response supplied as an oracle.  Returns the outcome together with
the request that was issued (`none` when the identifier fails to unpack as
`github_owner, repo_name = github_repo.split('/')` and the function
returns `False` before any network call). -/
def migrate_repository (forgejo_url github_repo : List Char)
    (github_token owner : Option (List Char)) (mirror : Bool)
    (resp : HttpResult) : Outcome × Option MigrateRequest :=
  let api_endpoint := pyRstripSlash forgejo_url ++ lit "/api/v1/repos/migrate"
  match pySplit '/' github_repo with
  | [github_owner, repo_name] =>
    let github_url := lit "https://github.com/" ++ github_repo
    let payload : MigratePayload :=
      { clone_addr := github_url
        repo_name := repo_name
        mirror := mirror
        priv := false
        description := lit "Migrated from " ++ github_url
        issues := false
        pull_requests := false
        releases := true
        wiki := false
        milestones := false
        labels := false
        service := lit "github"
        auth_token := pyTruthy github_token
        auth_username := (pyTruthy github_token).map (fun _ => github_owner)
        repo_owner := pyTruthy owner }
    (classify resp, some { endpoint := api_endpoint, payload := payload, timeoutSeconds := 120 })
  | _ =>
    (.Failed (lit "Invalid repo format " ++ [squote] ++ github_repo ++ [squote]
        ++ lit ". Expected " ++ [squote] ++ lit "owner/repo" ++ [squote]), none)

/-- The list-comprehension guard of `read_repos_from_file`
(`migrate_repos2.py` line 35): `line.strip() and not line.startswith('#')`.
Note the `startswith` test runs on the raw line, before stripping. -/
def keepLine (line : List Char) : Bool :=
  !(pyStrip line).isEmpty && !(pyStartsWith (lit "#") line)

/-- `read_repos_from_file` (`migrate_repos2.py` lines 31-42) applied to the
lines of the file: keep each line passing the guard, stripped, in order. -/
def read_repos_from_file : List (List Char) → List (List Char)
  | [] => []
  | line :: rest =>
    if keepLine line then pyStrip line :: read_repos_from_file rest
    else read_repos_from_file rest

/-- The loader as the specification words it: keep the lines that are
non-blank and whose first non-whitespace character is not `#` (i.e. whose
stripped form does not start with `#`). -/
def read_repos_spec (lines : List (List Char)) : List (List Char) :=
  (lines.filter (fun line =>
    !(pyStrip line).isEmpty && !(pyStartsWith (lit "#") (pyStrip line)))).map pyStrip

/-- The inline loader of the mirror script (`migrate_repos.py` lines
77-78): `repos = [line.strip() for line in f if line.strip()]` — keep
every line that is non-blank after stripping, stripped, in order.  It has
no comment test at all. -/
def mirror_read_repos : List (List Char) → List (List Char)
  | [] => []
  | line :: rest =>
    if !(pyStrip line).isEmpty then pyStrip line :: mirror_read_repos rest
    else mirror_read_repos rest

/-- The batch loop of `main` (`migrate_repos2.py` lines 165-173): one
outcome per repository, in order; the response to item `i` is `oracle i`. -/
def runBatch (repos : List (List Char)) (oracle : Nat → HttpResult)
    (forgejo_url : List Char) (github_token owner : Option (List Char))
    (mirror : Bool) : List Outcome :=
  (List.range repos.length).map fun i =>
    (migrate_repository forgejo_url (repos.getD i []) github_token owner mirror (oracle i)).1

/-- Exit code computed at the end of `main` (`migrate_repos2.py` line 181):
`sys.exit(0 if failure_count == 0 else 1)`, where `failure_count` counts
the items whose migration returned `False`. -/
def exitCodeOf (outs : List Outcome) : Nat :=
  if (outs.filter isFailed).length = 0 then 0 else 1

/-- Number of times the batch loop sleeps (`migrate_repos2.py` lines
172-173): once per iteration whose item compares unequal — by value — to
`repos[-1]`.  (`repos[-1]` on the empty list would raise, but `main`
exits first when the list is empty.) -/
def sleepCount (repos : List (List Char)) : Nat :=
  match repos.getLast? with
  | none => 0
  | some last => repos.countP (fun r => !(r == last))

/-- The per-iteration sleep decisions of the batch loop, in order: `true`
iff the loop sleeps after that item. -/
def sleepFlags (repos : List (List Char)) : List Bool :=
  match repos.getLast? with
  | none => []
  | some last => repos.map (fun r => !(r == last))

/-- Spec §3: the facet selection a `TransferConfig` is supposed to carry
(used to state configurability of the migrate payload's facet fields). -/
structure FacetSelection where
  issues : Bool
  pull_requests : Bool
  releases : Bool
  wiki : Bool
  milestones : Bool
  labels : Bool
deriving DecidableEq

/-- Whether the payload's facet fields realise the given selection. -/
def payloadFacetsMatch (p : MigratePayload) (sel : FacetSelection) : Bool :=
  p.issues == sel.issues && p.pull_requests == sel.pull_requests
    && p.releases == sel.releases && p.wiki == sel.wiki
    && p.milestones == sel.milestones && p.labels == sel.labels

/-- The facet selection in which every facet is requested. -/
def allFacetsOn : FacetSelection :=
  { issues := true, pull_requests := true, releases := true,
    wiki := true, milestones := true, labels := true }

/-! ### Model of `src/migrate_repos.py` (local-mirror strategy) -/

/-- Observable behaviour of the `create_repo` call
(`migrate_repos.py` lines 23-36): a 201 response yields the destination
clone URL; any other status makes `create_repo` print a message and return
`None`; an exception raised by `requests.post` propagates out of
`create_repo` uncaught. -/
inductive CreateResult where
  | created (clone_url : List Char)
  | failedStatus (text : List Char)
  | raised (detail : List Char)
deriving DecidableEq

/-- Outcome of one external `git` command run with `check=True`: success,
or a `subprocess.CalledProcessError` carrying the return code. -/
inductive StepResult where
  | ok
  | fail (rc : Nat)
deriving DecidableEq

/-- Oracle for one `migrate_repo` invocation: the provisioning result and
the result of each of the three `git` commands.  `cloneLeavesDir` records
whether a failed clone leaves the (partial) target directory behind. -/
structure MirrorEnv where
  createResp : CreateResult
  cloneRes : StepResult
  cloneLeavesDir : Bool
  remoteAddRes : StepResult
  pushRes : StepResult
deriving DecidableEq

/-- Abstract filesystem state as `migrate_repo` touches it: the process
working directory (an absolute path, as a list of components) and the set
of existing directories (absolute paths). -/
structure FsState where
  cwd : List (List Char)
  dirs : List (List (List Char))
deriving DecidableEq

/-- Creation of directory `name` under directory `base`. -/
def mkdirAt (fs : FsState) (base : List (List Char)) (name : List Char) : FsState :=
  { fs with dirs := (base ++ [name]) :: fs.dirs }

/-- The `finally` block of `migrate_repo` (`migrate_repos.py` lines 66-69):
`os.chdir('..')` (move to the parent of the current working directory,
whatever it is), then `if os.path.exists(temp_dir)` — `temp_dir` is a
relative path, resolved against the new working directory — run
`rm -rf temp_dir`. -/
def finallyCleanup (temp_dir : List Char) (fs : FsState) : FsState :=
  let fs1 : FsState := { fs with cwd := fs.cwd.dropLast }
  if (fs1.cwd ++ [temp_dir]) ∈ fs1.dirs then
    { fs1 with dirs := fs1.dirs.erase (fs1.cwd ++ [temp_dir]) }
  else fs1

/-- Observable result of a `migrate_repo` call that returned normally:
the Python return value, the filesystem state after the call, and the
lines the function printed. -/
structure MirrorRun where
  returned : Bool
  fs : FsState
  printed : List (List Char)
deriving DecidableEq

/-- `migrate_repo(full_name)` (`migrate_repos.py` lines 38-69) with the
module-level `GITHUB_TOKEN` and the external-world oracle as parameters.
`.error` models an exception propagating out of the call uncaught: the
unpack `owner, repo = full_name.split('/')` raising `ValueError`, or
`requests.post` inside `create_repo` raising (neither is inside the
`try` block, whose `except` moreover only catches
`subprocess.CalledProcessError`). -/
def migrate_repo (full_name : List Char) (github_token : Option (List Char))
    (env : MirrorEnv) (fs : FsState) : Except (List Char) MirrorRun :=
  match pySplit '/' full_name with
  | [owner, repo] =>
    let clone_url :=
      match pyTruthy github_token with
      | some tok =>
        lit "https://x-access-token:" ++ tok ++ lit "@github.com/"
          ++ owner ++ lit "/" ++ repo ++ lit ".git"
      | none => lit "https://github.com/" ++ owner ++ lit "/" ++ repo ++ lit ".git"
    match env.createResp with
    | .raised detail => .error detail
    | .failedStatus text =>
      .ok { returned := false, fs := fs,
            printed := [lit "Failed to create repo " ++ repo ++ lit ": " ++ text] }
    | .created forgejo_clone_url =>
      let temp_dir := lit "temp_mirror_" ++ repo
      let cloneCmd := [lit "git", lit "clone", lit "--mirror", clone_url, temp_dir]
      match env.cloneRes with
      | .fail rc =>
        let fs1 := if env.cloneLeavesDir then mkdirAt fs fs.cwd temp_dir else fs
        .ok { returned := false, fs := finallyCleanup temp_dir fs1,
              printed := [lit "Error migrating " ++ full_name ++ lit ": "
                ++ calledProcessErrorStr cloneCmd rc] }
      | .ok =>
        let fs1 := mkdirAt fs fs.cwd temp_dir
        let fs2 : FsState := { fs1 with cwd := fs1.cwd ++ [temp_dir] }
        let remoteCmd := [lit "git", lit "remote", lit "add", lit "forgejo", forgejo_clone_url]
        match env.remoteAddRes with
        | .fail rc =>
          .ok { returned := false, fs := finallyCleanup temp_dir fs2,
                printed := [lit "Error migrating " ++ full_name ++ lit ": "
                  ++ calledProcessErrorStr remoteCmd rc] }
        | .ok =>
          let pushCmd := [lit "git", lit "push", lit "--mirror", lit "forgejo"]
          match env.pushRes with
          | .fail rc =>
            .ok { returned := false, fs := finallyCleanup temp_dir fs2,
                  printed := [lit "Error migrating " ++ full_name ++ lit ": "
                    ++ calledProcessErrorStr pushCmd rc] }
          | .ok =>
            .ok { returned := true, fs := finallyCleanup temp_dir fs2,
                  printed := [lit "Successfully migrated " ++ full_name] }
  | _ => .error (lit "ValueError: unpacking full_name.split(/)")

/-- The `__main__` loop of `migrate_repos.py` (lines 80-81): run
`migrate_repo` on each item in order, threading the filesystem state; an
exception propagating out of `migrate_repo` aborts the rest of the batch
(there is no `try` around the loop body). -/
def runMirrorBatchAux (github_token : Option (List Char)) (envs : Nat → MirrorEnv) :
    List (List Char) → Nat → FsState → Except (List Char) (List Bool × FsState)
  | [], _, fs => .ok ([], fs)
  | repo :: rest, i, fs =>
    match migrate_repo repo github_token (envs i) fs with
    | .error e => .error e
    | .ok run =>
      match runMirrorBatchAux github_token envs rest (i + 1) run.fs with
      | .error e => .error e
      | .ok (bs, fs2) => .ok (run.returned :: bs, fs2)

/-- The `__main__` batch of `migrate_repos.py`, from the initial
filesystem state. -/
def runMirrorBatch (repos : List (List Char)) (github_token : Option (List Char))
    (envs : Nat → MirrorEnv) (fs : FsState) : Except (List Char) (List Bool × FsState) :=
  runMirrorBatchAux github_token envs repos 0 fs

/-- Whether the mirror batch aborted with an uncaught exception. -/
def mirrorBatchAborts (r : Except (List Char) (List Bool × FsState)) : Bool :=
  match r with
  | .error _ => true
  | .ok _ => false

/-- Filesystem state after a `migrate_repo` call that returned normally. -/
def fsAfterMirror (full_name : List Char) (github_token : Option (List Char))
    (env : MirrorEnv) (fs : FsState) : Option FsState :=
  match migrate_repo full_name github_token env fs with
  | .ok run => some run.fs
  | .error _ => none

/-- Lines printed by a `migrate_repo` call that returned normally. -/
def printedByMirror (full_name : List Char) (github_token : Option (List Char))
    (env : MirrorEnv) (fs : FsState) : List (List Char) :=
  match migrate_repo full_name github_token env fs with
  | .ok run => run.printed
  | .error _ => []

/-- Destination repository name chosen by the local-mirror strategy
(`migrate_repos.py` lines 39 and 45): the part after the `/` of the
identifier, passed to `create_repo`. -/
def mirrorDestName (full_name : List Char) : Option (List Char) :=
  match pySplit '/' full_name with
  | [_owner, repo] => some repo
  | _ => none

/-- Temporary mirror directory name (`migrate_repos.py` line 50):
`temp_mirror_{repo}`. -/
def mirrorTempDir (full_name : List Char) : Option (List Char) :=
  (mirrorDestName full_name).map (fun repo => lit "temp_mirror_" ++ repo)

/-! ### Names of error items for the server-side batch -/

/-- A per-item error situation for the server-side strategy: either the
identifier does not unpack into exactly two `/`-separated parts, or the
migrate call's response is neither 200/201 nor 409 (other status, timeout,
or network exception). -/
def isErrorItem (repo : List Char) (resp : HttpResult) : Bool :=
  !((pySplit '/' repo).length == 2) ||
    (match resp with
     | .status code _ _ => !(code == 200) && !(code == 201) && !(code == 409)
     | .timeout => true
     | .netError _ => true)

/-! ### Concrete inputs used by the evaluation theorems -/

/-- An oracle run in which provisioning succeeds and the mirror clone
fails (return code 128), leaving its partial target directory behind. -/
def cloneFailEnv : MirrorEnv :=
  { createResp := .created (lit "http://10.1.1.5:9870/gitfox/b.git")
    cloneRes := .fail 128
    cloneLeavesDir := true
    remoteAddRes := .ok
    pushRes := .ok }

/-- A starting filesystem state: working directory `/home/user`, no
temporary directories present. -/
def fsHome : FsState := { cwd := [lit "home", lit "user"], dirs := [] }

/-- An oracle run in which every external step succeeds. -/
def allOkEnv : MirrorEnv :=
  { createResp := .created (lit "http://10.1.1.5:9870/gitfox/b.git")
    cloneRes := .ok
    cloneLeavesDir := false
    remoteAddRes := .ok
    pushRes := .ok }

/-- The request `migrate_repository` issues for identifier `a/b` against
`http://f` with no tokens, no owner, and mirror off. -/
def c9Req : MigrateRequest :=
  { endpoint := lit "http://f/api/v1/repos/migrate"
    payload :=
      { clone_addr := lit "https://github.com/a/b"
        repo_name := lit "b"
        mirror := false
        priv := false
        description := lit "Migrated from https://github.com/a/b"
        issues := false
        pull_requests := false
        releases := true
        wiki := false
        milestones := false
        labels := false
        service := lit "github"
        auth_token := none
        auth_username := none
        repo_owner := none }
    timeoutSeconds := 120 }

/-! ## Claims -/

/-- Claim C1 (code bug in `migrate_repos.py` lines 66-69): evaluated at a
run whose `git clone --mirror` step fails (leaving its partial target
directory behind) from working directory `/home/user`, `migrate_repo`
returns with the working directory changed to `/home` — the parent of the
pre-call directory, because the `finally` block runs `os.chdir('..')`
although `os.chdir(temp_dir)` never executed — and with the temporary
mirror directory `/home/user/temp_mirror_b` still existing, because the
existence check resolves `temp_dir` against the wrong directory.  The
claim requires the pre-call working directory to be restored and the
temporary directory to be gone on every outcome. -/
theorem C1_clone_failure_breaks_cleanup :
    (fsAfterMirror (lit "a/b") none cloneFailEnv fsHome).map FsState.cwd = some [lit "home"]
    ∧ fsHome.cwd = [lit "home", lit "user"]
    ∧ (fsAfterMirror (lit "a/b") none cloneFailEnv fsHome).map
        (fun s => decide ((fsHome.cwd ++ [lit "temp_mirror_b"]) ∈ s.dirs)) = some true := by
  decide

/-- Claim C2, counterexample (corrected): in the mirror script
`migrate_repos.py` a parse error is not caught at the item boundary — on
the list `["abc", "a/b"]` the unpack `owner, repo = full_name.split('/')`
raises an uncaught `ValueError` at the first item and the batch aborts
(the second item is never processed), even though every external step
would succeed. -/
theorem C2_counterexample_mirror_parse_error_aborts :
    mirrorBatchAborts (runMirrorBatch [lit "abc", lit "a/b"] none (fun _ => allOkEnv) fsHome)
      = true := by
  decide

/-- Helper: a response whose status is none of 200, 201, 409 is classified
as a `Failed` outcome. -/
theorem isFailed_classify_of_error (code : Nat) (message : Option (List Char))
    (body : List Char) (h200 : code ≠ 200) (h201 : code ≠ 201) (h409 : code ≠ 409) :
    isFailed (classify (.status code message body)) = true := by
  simp only [classify]
  rw [if_neg (by rintro (h | h); exacts [h200 h, h201 h]), if_neg h409]
  cases message <;> rfl

/-- Claim C2, amended (the containment holds for the server-side
orchestrator `migrate_repos2.py` only): there, every per-item error —
malformed identifier, non-success HTTP status, timeout, or network
exception — is converted to a `Failed` outcome at its position while the
batch still produces one outcome for every item of the list. -/
theorem C2_per_item_errors_become_failed (repos : List (List Char))
    (oracle : Nat → HttpResult) (forgejo_url : List Char)
    (github_token owner : Option (List Char)) (mirror : Bool) (i : Nat)
    (hi : i < repos.length)
    (herr : isErrorItem (repos.getD i []) (oracle i) = true) :
    (runBatch repos oracle forgejo_url github_token owner mirror).length = repos.length
    ∧ isFailed ((runBatch repos oracle forgejo_url github_token owner mirror).getD i .Created)
        = true := by
  refine ⟨by simp [runBatch], ?_⟩
  rw [List.getD_eq_getElem _ _ (by simpa [runBatch] using hi)]
  simp only [runBatch, List.getElem_map, List.getElem_range]
  rcases hsp : pySplit '/' (repos.getD i []) with _ | ⟨a, _ | ⟨b, _ | ⟨c, t⟩⟩⟩ <;>
    simp only [isErrorItem, hsp, List.length_cons, List.length_nil] at herr <;>
    simp only [migrate_repository, hsp] <;> try rfl
  · -- the well-formed case: the response itself is an error
    rcases hresp : oracle i with ⟨code, message, body⟩ | _ | _
    · rw [hresp] at herr
      refine isFailed_classify_of_error code message body ?_ ?_ ?_ <;>
        · intro h; subst h; simp at herr
    · rfl
    · rfl

/-- Witness for the amended C2 theorem: a malformed identifier at item 0
of a one-item batch yields a `Failed` outcome and the batch still reports
one outcome. -/
theorem C2_per_item_errors_become_failed_witness :
    (runBatch [lit "abc"] (fun _ => .status 201 none []) (lit "http://f") none none
      false).length = 1
    ∧ isFailed ((runBatch [lit "abc"] (fun _ => .status 201 none []) (lit "http://f") none none
        false).getD 0 .Created) = true :=
  C2_per_item_errors_become_failed [lit "abc"] (fun _ => .status 201 none []) (lit "http://f")
    none none false 0 (by decide) (by decide)

/-- Claim C3, counterexample (corrected): the claim fails against both
loaders its sources cite.  On the one-line file `"  # note"` — whose
first non-whitespace character is the comment marker — the loader of
`migrate_repos2.py` returns the stripped line `"# note"` instead of
filtering it, because its guard tests `line.startswith('#')` on the raw,
unstripped line; and on the one-line file `"# note"` — a comment even at
column 0 — the inline loader of `migrate_repos.py` also returns the
line, because it has no comment test at all.  The loader the
specification describes returns the empty list for both files. -/
theorem C3_counterexample_indented_comment :
    read_repos_from_file [lit "  # note"] = [lit "# note"]
    ∧ read_repos_spec [lit "  # note"] = []
    ∧ mirror_read_repos [lit "# note"] = [lit "# note"]
    ∧ read_repos_spec [lit "# note"] = [] := by
  decide

/-- Claim C3, amended: the loader of `migrate_repos2.py` returns, in
order, the stripped forms of exactly those lines that are non-blank and
do not begin with the comment marker at their first raw character, and
the batch produces exactly one outcome per such line; the inline loader
of `migrate_repos.py` does no comment filtering at all — it returns, in
order, the stripped forms of every line that is non-blank after
stripping, comment lines included. -/
theorem C3_loader_filters_and_batch_count (lines : List (List Char))
    (oracle : Nat → HttpResult) (forgejo_url : List Char)
    (github_token owner : Option (List Char)) (mirror : Bool) :
    read_repos_from_file lines = (lines.filter keepLine).map pyStrip
    ∧ (runBatch (read_repos_from_file lines) oracle forgejo_url github_token owner mirror).length
        = (lines.filter keepLine).length
    ∧ mirror_read_repos lines
        = (lines.filter (fun l => !(pyStrip l).isEmpty)).map pyStrip := by
  have h : read_repos_from_file lines = (lines.filter keepLine).map pyStrip := by
    induction lines with
    | nil => rfl
    | cons l rest ih =>
      by_cases hk : keepLine l = true <;>
        simp [read_repos_from_file, hk, List.filter_cons, ih]
  have h2 : mirror_read_repos lines
      = (lines.filter (fun l => !(pyStrip l).isEmpty)).map pyStrip := by
    clear h
    induction lines with
    | nil => rfl
    | cons l rest ih =>
      by_cases hk : (!(pyStrip l).isEmpty) = true <;>
        simp [mirror_read_repos, hk, List.filter_cons, ih]
  exact ⟨h, by simp [runBatch, h], h2⟩

/-- Claim C4, counterexample (corrected): the identifier `"/x"` is not of
the form `owner/name` with both parts non-empty (its owner part is empty),
yet `migrate_repository` unpacks it successfully, issues the network call,
and returns success on a 201 response — neither `Failed` nor call-free. -/
theorem C4_counterexample_empty_owner :
    pySplit '/' (lit "/x") = [[], lit "x"]
    ∧ (migrate_repository (lit "http://forgejo") (lit "/x") none none false
        (.status 201 none [])).1 = .Created
    ∧ (migrate_repository (lit "http://forgejo") (lit "/x") none none false
        (.status 201 none [])).2.isSome = true := by
  decide

/-- Claim C4, amended: exactly the identifiers that do not split on the
separator into two parts (no `/`, or more than one `/`) are rejected
structurally: the outcome is `Failed` and no network call is issued.
Identifiers with exactly one `/` proceed to the call even when a part is
empty. -/
theorem C4_malformed_identifier_fails_without_network (forgejo_url github_repo : List Char)
    (github_token owner : Option (List Char)) (mirror : Bool) (resp : HttpResult)
    (h : (pySplit '/' github_repo).length ≠ 2) :
    isFailed (migrate_repository forgejo_url github_repo github_token owner mirror resp).1 = true
    ∧ (migrate_repository forgejo_url github_repo github_token owner mirror resp).2 = none := by
  rcases hsp : pySplit '/' github_repo with _ | ⟨a, _ | ⟨b, _ | ⟨c, t⟩⟩⟩
  · simp [migrate_repository, hsp, isFailed]
  · simp [migrate_repository, hsp, isFailed]
  · rw [hsp] at h; simp at h
  · simp [migrate_repository, hsp, isFailed]

/-- Witness for the amended C4 theorem, at the identifier `a/b/c`. -/
theorem C4_malformed_identifier_fails_without_network_witness :
    isFailed (migrate_repository (lit "http://f") (lit "a/b/c") none none false
        (.status 201 none [])).1 = true
    ∧ (migrate_repository (lit "http://f") (lit "a/b/c") none none false
        (.status 201 none [])).2 = none :=
  C4_malformed_identifier_fails_without_network (lit "http://f") (lit "a/b/c") none none false
    (.status 201 none []) (by decide)

set_option maxRecDepth 4000 in
/-- Claim C5 (code bug in `migrate_repos.py` line 64): with the source
token set to `SECRETTOKEN`, a failing `git clone` makes `migrate_repo`
print `Error migrating a/b: {e}`, and `str(e)` for a
`CalledProcessError` interpolates the command list — which contains the
clone URL with the embedded token.  The token therefore appears verbatim
in the printed per-item failure reason, which the claim forbids on every
run. -/
theorem C5_token_printed_on_clone_failure :
    (printedByMirror (lit "a/b") (some (lit "SECRETTOKEN")) cloneFailEnv fsHome).any
      (fun m => decide (lit "SECRETTOKEN" <:+: m)) = true := by
  decide

/-- Claim C6 (confirmed): a 409 response to the migrate call is classified
`AlreadyExists`, and when every outcome of the batch is `Created` or
`AlreadyExists` — so no item returned `False` — the exit code computed at
the end of `main` is 0. -/
theorem C6_conflict_counts_as_success :
    (∀ (message : Option (List Char)) (body : List Char),
        classify (.status 409 message body) = .AlreadyExists)
    ∧ ∀ (repos : List (List Char)) (oracle : Nat → HttpResult) (forgejo_url : List Char)
        (github_token owner : Option (List Char)) (mirror : Bool),
        (∀ o ∈ runBatch repos oracle forgejo_url github_token owner mirror,
            o = .Created ∨ o = .AlreadyExists) →
        exitCodeOf (runBatch repos oracle forgejo_url github_token owner mirror) = 0 := by
  constructor
  · intro message body
    simp [classify]
  · intro repos oracle forgejo_url github_token owner mirror h
    have hnil : (runBatch repos oracle forgejo_url github_token owner mirror).filter isFailed
        = [] := by
      rw [List.filter_eq_nil_iff]
      intro o ho
      rcases h o ho with h1 | h1 <;> simp [h1, isFailed]
    simp [exitCodeOf, hnil]

/-- Witness for C6: a one-item batch answered with 409 exits with code 0. -/
theorem C6_conflict_counts_as_success_witness :
    classify (.status 409 none []) = .AlreadyExists
    ∧ exitCodeOf (runBatch [lit "a/b"] (fun _ => .status 409 none []) (lit "http://f")
        none none false) = 0 :=
  ⟨C6_conflict_counts_as_success.1 none [],
   C6_conflict_counts_as_success.2 [lit "a/b"] (fun _ => .status 409 none []) (lit "http://f")
     none none false (by decide)⟩

/-- Claim C7 (confirmed): for a batch the orchestrator processes to
completion, the exit code computed at the end of `main` is nonzero exactly
when at least one item's outcome is `Failed`. -/
theorem C7_exit_nonzero_iff_failure (repos : List (List Char)) (oracle : Nat → HttpResult)
    (forgejo_url : List Char) (github_token owner : Option (List Char)) (mirror : Bool)
    (hne : repos ≠ []) :
    exitCodeOf (runBatch repos oracle forgejo_url github_token owner mirror) ≠ 0 ↔
      ∃ o ∈ runBatch repos oracle forgejo_url github_token owner mirror, isFailed o = true := by
  by_cases hz :
      ((runBatch repos oracle forgejo_url github_token owner mirror).filter isFailed).length = 0
  · have h1 : exitCodeOf (runBatch repos oracle forgejo_url github_token owner mirror) = 0 := by
      simp [exitCodeOf, hz]
    have h2 : ¬ ∃ o ∈ runBatch repos oracle forgejo_url github_token owner mirror,
        isFailed o = true := by
      rw [List.length_eq_zero, List.filter_eq_nil_iff] at hz
      rintro ⟨o, ho, hf⟩
      exact hz o ho hf
    simp [h1, h2]
  · have h1 : exitCodeOf (runBatch repos oracle forgejo_url github_token owner mirror) = 1 := by
      simp [exitCodeOf, hz]
    have h2 : ∃ o ∈ runBatch repos oracle forgejo_url github_token owner mirror,
        isFailed o = true := by
      rw [List.length_eq_zero, List.filter_eq_nil_iff] at hz
      push_neg at hz
      obtain ⟨o, ho, hf⟩ := hz
      exact ⟨o, ho, by simpa using hf⟩
    simp [h1, h2]

/-- Witness for C7: a one-item batch answered with HTTP 500 exits
nonzero, and its outcome list contains a `Failed` entry. -/
theorem C7_exit_nonzero_iff_failure_witness :
    exitCodeOf (runBatch [lit "a/b"] (fun _ => .status 500 (some (lit "boom")) [])
      (lit "http://f") none none false) ≠ 0 :=
  (C7_exit_nonzero_iff_failure [lit "a/b"] (fun _ => .status 500 (some (lit "boom")) [])
    (lit "http://f") none none false (by decide)).mpr (by decide)

/-- Claim C8, counterexample (corrected): on the two-item list
`["a/b", "a/b"]` the loop sleeps 0 times, not `n-1 = 1` times, because the
guard `if repo != repos[-1]` compares the current item to the last item by
value, and here the first item already equals the last. -/
theorem C8_counterexample_duplicate_last :
    sleepCount [lit "a/b", lit "a/b"]
      ≠ ([lit "a/b", lit "a/b"] : List (List Char)).length - 1 := by
  decide

/-- Claim C8, amended: the delay is skipped after every item whose value
equals the last item's value; in particular, whenever the last item's
value does not occur earlier in the list the loop sleeps exactly `n-1`
times, and it never sleeps after the final item. -/
theorem C8_sleeps_n_minus_one_when_last_unique (repos : List (List Char)) (last : List Char)
    (hlast : repos.getLast? = some last) (hnd : last ∉ repos.dropLast) :
    sleepCount repos = repos.length - 1
    ∧ (sleepFlags repos).getLast? = some false := by
  have hrepos : repos.dropLast ++ [last] = repos :=
    List.dropLast_append_getLast? last (by rw [hlast]; rfl)
  have hall : ∀ a ∈ repos.dropLast, (!(a == last)) = true := by
    intro a ha
    have hne : a ≠ last := fun h => hnd (h ▸ ha)
    simp [hne]
  have hlen : repos.length = repos.dropLast.length + 1 := by
    conv_lhs => rw [← hrepos]
    simp
  constructor
  · simp only [sleepCount, hlast]
    conv_lhs => rw [← hrepos]
    rw [List.countP_append, List.countP_eq_length.mpr hall, List.countP_singleton, hlen]
    simp
  · simp only [sleepFlags, hlast]
    conv_lhs => rw [← hrepos]
    rw [List.map_append]
    simp [List.getLast?_concat]

/-- Witness for the amended C8 theorem: two distinct items give one
sleep, and the final iteration does not sleep. -/
theorem C8_sleeps_n_minus_one_when_last_unique_witness :
    sleepCount [lit "a/b", lit "c/d"] = 1
    ∧ (sleepFlags [lit "a/b", lit "c/d"]).getLast? = some false :=
  C8_sleeps_n_minus_one_when_last_unique [lit "a/b", lit "c/d"] (lit "c/d")
    (by decide) (by decide)

/-- Claim C9, counterexample (corrected): the migrate payload does not
realise a facet selection that requests every facet — `migrate_repository`
accepts no facet-selection input at all, so for the selection with
`issues` on, the payload it sends disagrees with the selection. -/
theorem C9_counterexample_facets_not_configurable :
    (migrate_repository (lit "http://f") (lit "a/b") none none false
        (.status 201 none [])).2.map
      (fun req => payloadFacetsMatch req.payload allFacetsOn) = some false := by
  decide

/-- Claim C9, amended: the facet fields of every request the server-side
strategy issues are fixed constants — `releases` true, `issues`,
`pull_requests`, `wiki`, `milestones`, `labels` false (the script's
"lightweight mode") — independent of every configuration input. -/
theorem C9_facet_fields_are_constants (forgejo_url github_repo : List Char)
    (github_token owner : Option (List Char)) (mirror : Bool) (resp : HttpResult)
    (req : MigrateRequest)
    (h : (migrate_repository forgejo_url github_repo github_token owner mirror resp).2
        = some req) :
    req.payload.issues = false ∧ req.payload.pull_requests = false
    ∧ req.payload.releases = true ∧ req.payload.wiki = false
    ∧ req.payload.milestones = false ∧ req.payload.labels = false := by
  rcases hsp : pySplit '/' github_repo with _ | ⟨a, _ | ⟨b, _ | ⟨c, t⟩⟩⟩
  · simp [migrate_repository, hsp] at h
  · simp [migrate_repository, hsp] at h
  · simp only [migrate_repository, hsp] at h
    have h2 := Option.some.inj h
    subst h2
    exact ⟨rfl, rfl, rfl, rfl, rfl, rfl⟩
  · simp [migrate_repository, hsp] at h

/-- Witness for the amended C9 theorem, at the request issued for `a/b`. -/
theorem C9_facet_fields_are_constants_witness :
    c9Req.payload.issues = false ∧ c9Req.payload.pull_requests = false
    ∧ c9Req.payload.releases = true ∧ c9Req.payload.wiki = false
    ∧ c9Req.payload.milestones = false ∧ c9Req.payload.labels = false :=
  C9_facet_fields_are_constants (lit "http://f") (lit "a/b") none none false
    (.status 201 none []) c9Req (by decide)

/-- Claim C10 (confirmed): for well-formed identifiers both strategies
derive the destination repository name from the name component alone —
the server-side payload's `repo_name` and the local-mirror strategy's
`create_repo` argument and temporary directory ignore the owner
component, so two identifiers sharing a name target the same destination
repository and the same temporary directory. -/
theorem C10_destination_name_is_name_component (r₁ r₂ o₁ o₂ n forgejo_url : List Char)
    (github_token owner : Option (List Char)) (mirror : Bool) (resp : HttpResult)
    (h₁ : pySplit '/' r₁ = [o₁, n]) (h₂ : pySplit '/' r₂ = [o₂, n]) :
    (migrate_repository forgejo_url r₁ github_token owner mirror resp).2.map
        (fun q => q.payload.repo_name) = some n
    ∧ (migrate_repository forgejo_url r₂ github_token owner mirror resp).2.map
        (fun q => q.payload.repo_name) = some n
    ∧ mirrorDestName r₁ = some n ∧ mirrorDestName r₂ = some n
    ∧ mirrorTempDir r₁ = mirrorTempDir r₂ := by
  simp [migrate_repository, mirrorDestName, mirrorTempDir, h₁, h₂]

/-- Witness for C10, at the identifiers `a/x` and `b/x`. -/
theorem C10_destination_name_is_name_component_witness :
    (migrate_repository (lit "http://f") (lit "a/x") none none false
        (.status 201 none [])).2.map (fun q => q.payload.repo_name) = some (lit "x")
    ∧ (migrate_repository (lit "http://f") (lit "b/x") none none false
        (.status 201 none [])).2.map (fun q => q.payload.repo_name) = some (lit "x")
    ∧ mirrorDestName (lit "a/x") = some (lit "x") ∧ mirrorDestName (lit "b/x") = some (lit "x")
    ∧ mirrorTempDir (lit "a/x") = mirrorTempDir (lit "b/x") :=
  C10_destination_name_is_name_component (lit "a/x") (lit "b/x") (lit "a") (lit "b") (lit "x")
    (lit "http://f") none none false (.status 201 none []) (by decide) (by decide)
